import Mathlib

/-!
Shallow embedding of `src/serve_cors.py`, a static file server that adds
permissive CORS headers to every response.

The file defines:
* the request/response data model and the `end_headers` / `do_OPTIONS`
  overrides of `CORSRequestHandler` (translated from the source);
* a model of the base file-serving logic of the standard library
  (`SimpleHTTPRequestHandler`), which is not part of this repository and
  is therefore modelled from the specification;
* a model of `main`: CLI argument handling, bind, serve loop lifecycle,
  shutdown, and the diagnostic/exit-code trace it produces.
-/

namespace ServeCors

/-- An HTTP header: a name and a value. -/
structure Header where
  name  : String
  value : String
deriving DecidableEq, Repr

/-- HTTP request methods relevant to the server. Methods other than
GET, HEAD and OPTIONS are carried as `OTHER` with their name. -/
inductive Method where
  | GET
  | HEAD
  | OPTIONS
  | OTHER (s : String)
deriving DecidableEq, Repr

/-- An HTTP request: method, request path, request headers. -/
structure Request where
  method  : Method
  path    : String
  headers : List Header
deriving DecidableEq, Repr

/-- An HTTP response: status code, response headers in emission order,
and the body (empty for HEAD and OPTIONS responses). -/
structure Response where
  status  : Nat
  headers : List Header
  body    : String
deriving DecidableEq, Repr

/-- The filesystem visible to the server, as finite association lists:
absolute paths (as segment lists) of regular files with their content,
and of directories with their entry names. -/
structure Fs where
  files : List (List String × String)
  dirs  : List (List String × List String)
deriving DecidableEq, Repr

/-- Header sent by `end_headers` in src/serve_cors.py line 18. -/
def hdr_origin : Header := ⟨"Access-Control-Allow-Origin", "*"⟩

/-- Header sent by `end_headers` in src/serve_cors.py line 19. -/
def hdr_methods : Header := ⟨"Access-Control-Allow-Methods", "GET, OPTIONS"⟩

/-- Header sent by `end_headers` in src/serve_cors.py line 20. -/
def hdr_allow : Header := ⟨"Access-Control-Allow-Headers", "*"⟩

/-- Header sent by `end_headers` in src/serve_cors.py line 22. -/
def hdr_cache : Header := ⟨"Cache-Control", "no-store, no-cache, must-revalidate, max-age=0"⟩

/-- The four headers added by `CORSRequestHandler.end_headers`, in the
order of the four `send_header` calls in the source. -/
def corsHeaders : List Header := [hdr_origin, hdr_methods, hdr_allow, hdr_cache]

/-- Translation of `CORSRequestHandler.end_headers`: each `send_header`
call appends one header to the buffered header list, and the final
`super().end_headers()` flushes the buffer onto the wire. Its input is
the header list the base logic has buffered so far; its output is the
header list actually emitted. -/
def end_headers (buffered : List Header) : List Header :=
  buffered ++ corsHeaders

/-- Translation of `CORSRequestHandler.do_OPTIONS`: `send_response(200, "ok")`
followed by `self.end_headers()`. No body is written and nothing is read
from the filesystem. The automatic Server/Date headers of the standard
library `send_response` are not described by the specification and are
elided, so the buffered list at the `end_headers` call is empty. -/
def do_OPTIONS : Response :=
  { status := 200, headers := end_headers [], body := "" }

/-- Modelled from the spec: extension-based Content-Type inference done
by the standard library file server, which is not part of this
repository. The specification fixes only that the type is inferred from
the extension. -/
def guess_type (path : String) : String :=
  if path.endsWith ".html" then "text/html"
  else if path.endsWith ".txt" then "text/plain"
  else if path.endsWith ".js" then "text/javascript"
  else if path.endsWith ".css" then "text/css"
  else if path.endsWith ".json" then "application/json"
  else "application/octet-stream"

/-- Modelled from the spec: path resolution of the standard library file
server (`translate_path`), which is not part of this repository. The
specification requires the request path to be resolved against the root
directory with traversal segments rejected/normalized away so that the
result can never escape the root: the path is split on slashes and the
empty, current-directory and parent-directory components are dropped. -/
def translate_path (path : String) : List String :=
  (path.splitOn "/").filter (fun w => w != "" && w != "." && w != "..")

/-- The absolute path a request path denotes: the sanitized segments
resolved under the root directory. -/
def resolve (root : List String) (path : String) : List String :=
  root ++ translate_path path

/-- Modelled from the spec: the auto-generated HTML index for a
directory, a listing that links to each entry. Its exact formatting is
declared an implementation detail by the specification. -/
def dir_listing (entries : List String) : String :=
  String.intercalate "\n" (entries.map (fun e => "<li><a href=" ++ e ++ ">" ++ e ++ "</a></li>"))

/-- Modelled from the spec: the HTML body of an error response produced
by the standard library `send_error`. -/
def error_body (code : Nat) : String :=
  "Error response: " ++ toString code

/-- Modelled from the spec: the base GET/HEAD file-serving logic of
`SimpleHTTPRequestHandler`, which is not part of this repository. The
request path is resolved against the root; a regular file is served with
status 200, Content-Type and Content-Length; a directory yields a
generated HTML index with status 200; anything else is a 404 error; an
unsupported method is a 501 error. Every branch finalizes its headers
through the overridden `end_headers`, and HEAD responses carry no body. -/
def base_handle (fs : Fs) (root : List String) (req : Request) : Response :=
  match req.method with
  | Method.OTHER _ =>
      { status := 501,
        headers := end_headers [⟨"Content-Type", "text/html;charset=utf-8"⟩],
        body := error_body 501 }
  | _ =>
      match fs.files.lookup (resolve root req.path) with
      | some content =>
          { status := 200,
            headers := end_headers
              [⟨"Content-Type", guess_type req.path⟩,
               ⟨"Content-Length", toString content.length⟩],
            body := if req.method = Method.HEAD then "" else content }
      | none =>
          match fs.dirs.lookup (resolve root req.path) with
          | some entries =>
              { status := 200,
                headers := end_headers [⟨"Content-Type", "text/html;charset=utf-8"⟩],
                body := if req.method = Method.HEAD then "" else dir_listing entries }
          | none =>
              { status := 404,
                headers := end_headers [⟨"Content-Type", "text/html;charset=utf-8"⟩],
                body := error_body 404 }

/-- One request handled by `CORSRequestHandler`: an OPTIONS request is
answered by the `do_OPTIONS` override without touching the filesystem;
every other method falls through to the base file-serving logic. -/
def handle_request (fs : Fs) (root : List String) (req : Request) : Response :=
  match req.method with
  | Method.OPTIONS => do_OPTIONS
  | _ => base_handle fs root req

/-- The serve loop: each accepted connection is handled independently
against the same immutable root directory and filesystem. -/
def serve_loop (fs : Fs) (root : List String) (reqs : List Request) : List Response :=
  reqs.map (handle_request fs root)

/-- The configuration produced by argument handling in `main`:
`args.port` and `args.dir`. -/
structure Config where
  port : Int
  dir  : String
deriving DecidableEq, Repr

/-- Accumulator pass of the decimal conversion: consumes digits,
fails on any non-digit character. -/
def chars_to_nat_go : List Char → Nat → Option Nat
  | [], acc => some acc
  | c :: cs, acc =>
      if 48 ≤ c.toNat ∧ c.toNat ≤ 57 then
        chars_to_nat_go cs (acc * 10 + (c.toNat - 48))
      else none

/-- A nonempty all-digit character list read as a decimal number. -/
def chars_to_nat : List Char → Option Nat
  | [] => none
  | c :: cs => chars_to_nat_go (c :: cs) 0

/-- Modelled from the spec: the `int()` conversion that argparse applies
to the `--port` value, restricted to its essentials — an optional
leading minus sign followed by decimal digits; anything else fails the
conversion. -/
def py_int (s : String) : Option Int :=
  match s.data with
  | [] => none
  | c :: cs =>
      if c.toNat = 45 then (chars_to_nat cs).map (fun n => -(n : Int))
      else (chars_to_nat (c :: cs)).map (fun n => (n : Int))

/-- CLI argument handling built in `main` (src/serve_cors.py lines 31
to 39). The argparse machinery itself is standard-library code and is
modelled from the spec: `--port`/`-p` is converted with `int()` and a
value that fails the conversion is malformed input (usage message,
non-zero exit), `--dir`/`-d` is taken as a plain string, the defaults
are 8000 and "public". The source attaches no range constraint to the
port: any value accepted by `int()` is accepted. -/
def parse_args_from : Config → List String → Except String Config
  | cfg, [] => Except.ok cfg
  | cfg, a :: v :: rest =>
      if a == "--port" || a == "-p" then
        match py_int v with
        | some n => parse_args_from { cfg with port := n } rest
        | none => Except.error ("usage: argument --port/-p: invalid int value: " ++ v)
      else if a == "--dir" || a == "-d" then
        parse_args_from { cfg with dir := v } rest
      else Except.error ("usage: unrecognized arguments: " ++ a)
  | _, [a] =>
      if a == "--port" || a == "-p" || a == "--dir" || a == "-d" then
        Except.error ("usage: argument " ++ a ++ ": expected one argument")
      else Except.error ("usage: unrecognized arguments: " ++ a)

/-- Argument handling with the defaults of the source: port 8000,
directory "public". -/
def parse_args (argv : List String) : Except String Config :=
  parse_args_from ⟨8000, "public"⟩ argv

/-- The environment a run of `main` meets: whether the TCP bind on the
configured port succeeds, and whether an interrupt arrives while
`serve_forever` is running (if none does, the accept loop never
returns). -/
structure Env where
  bindOk      : Bool
  interrupted : Bool
deriving DecidableEq, Repr

/-- The observable outcome of a run of `main`: the lines printed to the
two streams, the ports on which a bind was attempted, how many times
`httpd.server_close()` ran, the exit code (`none` while the process is
still serving), whether the startup diagnostic line was printed, and
whether the Serving state was entered. -/
structure Trace where
  stderrLines        : List String
  stdoutLines        : List String
  bindAttempts       : List Int
  server_close_calls : Nat
  exitCode           : Option Nat
  servingLinePrinted : Bool
  served             : Bool
deriving DecidableEq, Repr

/-- A single quote character, used by the startup diagnostic line. -/
def squote : String := String.mk [Char.ofNat 39]

/-- The startup diagnostic of src/serve_cors.py line 46, printed to
stderr. -/
def serving_msg (cfg : Config) : String :=
  "Serving " ++ squote ++ cfg.dir ++ squote ++ " at http://localhost:"
    ++ toString cfg.port ++ " with CORS enabled"

/-- The shutdown diagnostic of src/serve_cors.py line 50, printed to
stderr. -/
def shutdown_msg : String := "Shutting down server..."

/-- The uncaught-OSError diagnostic the interpreter prints when
`TCPServer` cannot bind; its exact text (a traceback) is immaterial. -/
def bind_error_msg : String := "Traceback (most recent call last): OSError"

/-- Translation of `main` (src/serve_cors.py lines 30 to 52). Argument
handling failure exits with code 2 after printing usage. Otherwise
`TCPServer(("", args.port), handler_factory)` attempts exactly one bind
on the configured port: on failure the OSError propagates out of `main`
and the interpreter exits with code 1, with the Serving line never
printed. On success the Serving line goes to stderr and `serve_forever`
runs; without an interrupt it never returns. On KeyboardInterrupt the
shutdown line goes to stderr, the `finally` block calls
`httpd.server_close()`, and leaving the `with` block calls
`httpd.server_close()` a second time; the process then exits with
code 0. -/
def main_run (argv : List String) (env : Env) : Trace :=
  match parse_args argv with
  | Except.error msg =>
      { stderrLines := [msg], stdoutLines := [], bindAttempts := [],
        server_close_calls := 0, exitCode := some 2,
        servingLinePrinted := false, served := false }
  | Except.ok cfg =>
      if env.bindOk then
        if env.interrupted then
          { stderrLines := [serving_msg cfg, shutdown_msg], stdoutLines := [],
            bindAttempts := [cfg.port], server_close_calls := 2,
            exitCode := some 0, servingLinePrinted := true, served := true }
        else
          { stderrLines := [serving_msg cfg], stdoutLines := [],
            bindAttempts := [cfg.port], server_close_calls := 0,
            exitCode := none, servingLinePrinted := true, served := true }
      else
        { stderrLines := [bind_error_msg], stdoutLines := [],
          bindAttempts := [cfg.port], server_close_calls := 0,
          exitCode := some 1, servingLinePrinted := false, served := false }

/-- Every branch of the handler emits its headers through `end_headers`,
so the emitted header list is always some buffered base list followed by
the four CORS/no-cache headers. -/
theorem handle_request_headers_split (fs : Fs) (root : List String) (req : Request) :
    ∃ b, (handle_request fs root req).headers = b ++ corsHeaders := by
  rcases req with ⟨m, p, hs⟩
  cases m with
  | OPTIONS => exact ⟨[], rfl⟩
  | OTHER s => exact ⟨[⟨"Content-Type", "text/html;charset=utf-8"⟩], rfl⟩
  | GET =>
      cases hf : fs.files.lookup (resolve root p) with
      | some c =>
          exact ⟨[⟨"Content-Type", guess_type p⟩, ⟨"Content-Length", toString c.length⟩],
            by simp [handle_request, base_handle, hf, end_headers]⟩
      | none =>
          cases hd : fs.dirs.lookup (resolve root p) with
          | some es =>
              exact ⟨[⟨"Content-Type", "text/html;charset=utf-8"⟩],
                by simp [handle_request, base_handle, hf, hd, end_headers]⟩
          | none =>
              exact ⟨[⟨"Content-Type", "text/html;charset=utf-8"⟩],
                by simp [handle_request, base_handle, hf, hd, end_headers]⟩
  | HEAD =>
      cases hf : fs.files.lookup (resolve root p) with
      | some c =>
          exact ⟨[⟨"Content-Type", guess_type p⟩, ⟨"Content-Length", toString c.length⟩],
            by simp [handle_request, base_handle, hf, end_headers]⟩
      | none =>
          cases hd : fs.dirs.lookup (resolve root p) with
          | some es =>
              exact ⟨[⟨"Content-Type", "text/html;charset=utf-8"⟩],
                by simp [handle_request, base_handle, hf, hd, end_headers]⟩
          | none =>
              exact ⟨[⟨"Content-Type", "text/html;charset=utf-8"⟩],
                by simp [handle_request, base_handle, hf, hd, end_headers]⟩

/-- C1: every response, whatever the path, method or status code, carries
the four CORS/no-cache headers, and they are appended after the headers
the base file-serving logic buffered, never replacing them. -/
theorem C1_cors_headers_on_every_response (fs : Fs) (root : List String) (req : Request) :
    (∃ base, (handle_request fs root req).headers = base ++ corsHeaders) ∧
    hdr_origin ∈ (handle_request fs root req).headers ∧
    hdr_methods ∈ (handle_request fs root req).headers ∧
    hdr_allow ∈ (handle_request fs root req).headers ∧
    hdr_cache ∈ (handle_request fs root req).headers := by
  obtain ⟨b, hb⟩ := handle_request_headers_split fs root req
  refine ⟨⟨b, hb⟩, ?_, ?_, ?_, ?_⟩ <;> rw [hb] <;> simp [corsHeaders]

/-- C10: the header suffix appended by `end_headers` is one constant
list, identical for any two requests whatever their method, path, or the
filesystem and root they are served against. -/
theorem C10_decoration_constant (fs1 fs2 : Fs) (r1 r2 : List String) (q1 q2 : Request) :
    ∃ b1 b2,
      (handle_request fs1 r1 q1).headers = b1 ++ corsHeaders ∧
      (handle_request fs2 r2 q2).headers = b2 ++ corsHeaders ∧
      (handle_request fs1 r1 q1).headers.drop b1.length =
        (handle_request fs2 r2 q2).headers.drop b2.length := by
  obtain ⟨b1, h1⟩ := handle_request_headers_split fs1 r1 q1
  obtain ⟨b2, h2⟩ := handle_request_headers_split fs2 r2 q2
  exact ⟨b1, b2, h1, h2, by rw [h1, h2, List.drop_left, List.drop_left]⟩

/-- C2: the resolved path of every request is the root directory
extended by sanitized segments only (no empty, `.` or `..` component
survives), and the response depends on the filesystem only at that
resolved path, so the body is never the content of a file outside the
root: two filesystems agreeing under the resolved path get identical
responses even if one holds extra files outside the root. -/
theorem C2_traversal_never_escapes_root (fs fs2 : Fs) (root : List String) (req : Request)
    (hf : fs.files.lookup (resolve root req.path) = fs2.files.lookup (resolve root req.path))
    (hd : fs.dirs.lookup (resolve root req.path) = fs2.dirs.lookup (resolve root req.path)) :
    (∃ rest, resolve root req.path = root ++ rest ∧
      rest.all (fun w => w != "" && w != "." && w != "..") = true) ∧
    handle_request fs root req = handle_request fs2 root req := by
  constructor
  · refine ⟨translate_path req.path, rfl, ?_⟩
    simp only [translate_path, List.all_eq_true]
    intro w hw
    exact (List.mem_filter.mp hw).2
  · rcases req with ⟨m, p, hs⟩
    simp only [Request.path] at hf hd
    cases m with
    | OPTIONS => rfl
    | OTHER s => rfl
    | GET => simp only [handle_request, base_handle, hf, hd]
    | HEAD => simp only [handle_request, base_handle, hf, hd]

/-- C2 witness: a traversal request for /../../etc/passwd resolves under
the root srv, and the response is the same whether or not a file
etc/passwd with secret content exists outside the root. -/
theorem C2_traversal_witness :
    (∃ rest, resolve ["srv"] "/../../etc/passwd" = ["srv"] ++ rest ∧
      rest.all (fun w => w != "" && w != "." && w != "..") = true) ∧
    handle_request ⟨[(["etc", "passwd"], "secret")], []⟩ ["srv"]
        ⟨Method.GET, "/../../etc/passwd", []⟩ =
      handle_request ⟨[], []⟩ ["srv"] ⟨Method.GET, "/../../etc/passwd", []⟩ :=
  C2_traversal_never_escapes_root ⟨[(["etc", "passwd"], "secret")], []⟩ ⟨[], []⟩
    ["srv"] ⟨Method.GET, "/../../etc/passwd", []⟩ rfl rfl

/-- C3: an OPTIONS request on any path gets status 200 with an empty
body and the four CORS/no-cache headers, and the response is identical
for any two filesystems and roots: no filesystem access or file
resolution takes place. -/
theorem C3_options_request (fs fs2 : Fs) (root root2 : List String) (req : Request)
    (hm : req.method = Method.OPTIONS) :
    (handle_request fs root req).status = 200 ∧
    (handle_request fs root req).body = "" ∧
    (handle_request fs root req).headers = end_headers [] ∧
    hdr_origin ∈ (handle_request fs root req).headers ∧
    hdr_methods ∈ (handle_request fs root req).headers ∧
    hdr_allow ∈ (handle_request fs root req).headers ∧
    hdr_cache ∈ (handle_request fs root req).headers ∧
    handle_request fs root req = handle_request fs2 root2 req := by
  rcases req with ⟨m, p, hs⟩
  simp only [Request.method] at hm
  subst hm
  simp [handle_request, do_OPTIONS, end_headers, corsHeaders]

/-- C3 witness: the OPTIONS contract at a concrete request, with the
no-filesystem-access conjunct instantiated at two different filesystems
and roots. -/
theorem C3_options_witness :
    (handle_request ⟨[], []⟩ ["srv"] ⟨Method.OPTIONS, "/anything", []⟩).status = 200 ∧
    (handle_request ⟨[], []⟩ ["srv"] ⟨Method.OPTIONS, "/anything", []⟩).body = "" ∧
    handle_request ⟨[], []⟩ ["srv"] ⟨Method.OPTIONS, "/anything", []⟩ =
      handle_request ⟨[(["etc", "passwd"], "secret")], []⟩ ["other"]
        ⟨Method.OPTIONS, "/anything", []⟩ := by
  have h := C3_options_request ⟨[], []⟩ ⟨[(["etc", "passwd"], "secret")], []⟩
    ["srv"] ["other"] ⟨Method.OPTIONS, "/anything", []⟩ rfl
  exact ⟨h.1, h.2.1, h.2.2.2.2.2.2.2⟩

/-- C4: a GET request whose resolved path is neither a file nor a
directory gets a 404 response that still carries the four CORS/no-cache
headers, and its handling is contained: in any serve loop the
surrounding requests are answered exactly as they would be on their own,
against the unchanged root and filesystem. -/
theorem C4_missing_file_404 (fs : Fs) (root : List String) (req : Request)
    (hm : req.method = Method.GET)
    (hf : fs.files.lookup (resolve root req.path) = none)
    (hd : fs.dirs.lookup (resolve root req.path) = none) :
    (handle_request fs root req).status = 404 ∧
    hdr_origin ∈ (handle_request fs root req).headers ∧
    hdr_methods ∈ (handle_request fs root req).headers ∧
    hdr_allow ∈ (handle_request fs root req).headers ∧
    hdr_cache ∈ (handle_request fs root req).headers ∧
    ∀ pre post : List Request,
      serve_loop fs root (pre ++ req :: post) =
        serve_loop fs root pre ++ handle_request fs root req :: serve_loop fs root post := by
  rcases req with ⟨m, p, hs⟩
  simp only [Request.method] at hm
  simp only [Request.path] at hf hd
  subst hm
  refine ⟨?_, ?_, ?_, ?_, ?_, ?_⟩
  · simp [handle_request, base_handle, hf, hd]
  · simp [handle_request, base_handle, hf, hd, end_headers, corsHeaders]
  · simp [handle_request, base_handle, hf, hd, end_headers, corsHeaders]
  · simp [handle_request, base_handle, hf, hd, end_headers, corsHeaders]
  · simp [handle_request, base_handle, hf, hd, end_headers, corsHeaders]
  · intro pre post
    simp [serve_loop]

/-- C4 witness: a GET for a missing file on an empty filesystem yields
404 with the CORS headers, and a concrete three-request serve loop
around it decomposes into independent per-request answers. -/
theorem C4_missing_file_witness :
    (handle_request ⟨[], []⟩ ["srv"] ⟨Method.GET, "/missing-file.txt", []⟩).status = 404 ∧
    hdr_origin ∈ (handle_request ⟨[], []⟩ ["srv"] ⟨Method.GET, "/missing-file.txt", []⟩).headers ∧
    serve_loop ⟨[], []⟩ ["srv"]
        ([⟨Method.OPTIONS, "/", []⟩] ++ ⟨Method.GET, "/missing-file.txt", []⟩ ::
          [⟨Method.GET, "/a.txt", []⟩]) =
      serve_loop ⟨[], []⟩ ["srv"] [⟨Method.OPTIONS, "/", []⟩] ++
        handle_request ⟨[], []⟩ ["srv"] ⟨Method.GET, "/missing-file.txt", []⟩ ::
          serve_loop ⟨[], []⟩ ["srv"] [⟨Method.GET, "/a.txt", []⟩] := by
  have h := C4_missing_file_404 ⟨[], []⟩ ["srv"] ⟨Method.GET, "/missing-file.txt", []⟩
    rfl rfl rfl
  exact ⟨h.1, h.2.1, h.2.2.2.2.2 [⟨Method.OPTIONS, "/", []⟩] [⟨Method.GET, "/a.txt", []⟩]⟩

/-- C5: when the bind on the configured port fails, the process exits
with code 1 (non-zero), never enters the Serving state, never prints the
startup diagnostic line, and the only bind ever attempted is the single
one on the configured port: no retry, no fallback port. -/
theorem C5_bind_failure_fatal (argv : List String) (env : Env) (cfg : Config)
    (hp : parse_args argv = Except.ok cfg) (hb : env.bindOk = false) :
    (main_run argv env).exitCode = some 1 ∧
    (main_run argv env).exitCode ≠ some 0 ∧
    (main_run argv env).served = false ∧
    (main_run argv env).servingLinePrinted = false ∧
    (main_run argv env).bindAttempts = [cfg.port] := by
  simp [main_run, hp, hb]

/-- C5 witness: a run with default arguments whose bind fails. -/
theorem C5_bind_failure_witness :
    (main_run [] ⟨false, false⟩).exitCode = some 1 ∧
    (main_run [] ⟨false, false⟩).exitCode ≠ some 0 ∧
    (main_run [] ⟨false, false⟩).served = false ∧
    (main_run [] ⟨false, false⟩).servingLinePrinted = false ∧
    (main_run [] ⟨false, false⟩).bindAttempts = [(8000 : Int)] :=
  C5_bind_failure_fatal [] ⟨false, false⟩ ⟨8000, "public"⟩ rfl rfl

/-- C6 counterexample: on the interrupt shutdown path
`httpd.server_close()` runs twice — once in the `finally` block and once
when the `with` statement exits — so the execution closes the socket
more than once, contradicting closed-exactly-once. -/
theorem C6_counterexample_double_close :
    (main_run [] ⟨true, true⟩).server_close_calls = 2 ∧
    ¬ (main_run [] ⟨true, true⟩).server_close_calls = 1 :=
  ⟨rfl, by decide⟩

/-- C6 (amended): on every shutdown path the listening socket is
released and never left open, but `server_close` runs exactly twice
(the `finally` block and the `with`-statement exit), not exactly once;
the second call is a no-op on an already closed socket. -/
theorem C6_amended_shutdown_close (argv : List String) (env : Env) (cfg : Config)
    (hp : parse_args argv = Except.ok cfg) (hb : env.bindOk = true) (hi : env.interrupted = true) :
    (main_run argv env).server_close_calls = 2 ∧
    1 ≤ (main_run argv env).server_close_calls ∧
    (main_run argv env).exitCode = some 0 := by
  simp [main_run, hp, hb, hi]

/-- C6 amended witness: a concrete interrupted run with default
arguments. -/
theorem C6_amended_witness :
    (main_run ["-p", "9000"] ⟨true, true⟩).server_close_calls = 2 ∧
    1 ≤ (main_run ["-p", "9000"] ⟨true, true⟩).server_close_calls ∧
    (main_run ["-p", "9000"] ⟨true, true⟩).exitCode = some 0 :=
  C6_amended_shutdown_close ["-p", "9000"] ⟨true, true⟩ ⟨9000, "public"⟩ rfl rfl rfl

/-- C7 counterexample: the out-of-range port value 0 is accepted by
argument handling rather than treated as malformed, and with a
successful bind the process enters the Serving state and prints the
startup line — contradicting prints-usage-and-exits-non-zero. -/
theorem C7_counterexample_port_zero :
    parse_args ["--port", "0"] = Except.ok ⟨0, "public"⟩ ∧
    (main_run ["--port", "0"] ⟨true, true⟩).served = true ∧
    (main_run ["--port", "0"] ⟨true, true⟩).servingLinePrinted = true ∧
    (main_run ["--port", "0"] ⟨true, true⟩).exitCode = some 0 :=
  ⟨rfl, rfl, rfl, rfl⟩

/-- C7 (amended): argument handling validates only that the port value
is an integer. A value that fails integer conversion is malformed input:
the process prints a usage message, exits with code 2, and never enters
the Serving state. Any integer value, in range or not, is accepted with
that port in the configuration. -/
theorem C7_amended_int_validation_only (v : String) (env : Env) :
    (py_int v = none →
      (main_run ["--port", v] env).exitCode = some 2 ∧
      (main_run ["--port", v] env).served = false ∧
      (main_run ["--port", v] env).servingLinePrinted = false) ∧
    (∀ n : Int, py_int v = some n →
      parse_args ["--port", v] = Except.ok ⟨n, "public"⟩) := by
  have hstep : parse_args ["--port", v] =
      (match py_int v with
       | some n => Except.ok (⟨n, "public"⟩ : Config)
       | none => Except.error ("usage: argument --port/-p: invalid int value: " ++ v)) := rfl
  constructor
  · intro hnone
    rw [hnone] at hstep
    simp [main_run, hstep]
  · intro n hn
    rw [hn] at hstep
    simpa using hstep

/-- C7 amended witness: the non-integer value abc is rejected with usage
and exit code 2, while the integer value 70000 (outside 1 to 65535) is
accepted by argument handling. -/
theorem C7_amended_witness :
    ((main_run ["--port", "abc"] ⟨true, true⟩).exitCode = some 2 ∧
      (main_run ["--port", "abc"] ⟨true, true⟩).served = false ∧
      (main_run ["--port", "abc"] ⟨true, true⟩).servingLinePrinted = false) ∧
    parse_args ["--port", "70000"] = Except.ok ⟨70000, "public"⟩ :=
  ⟨(C7_amended_int_validation_only "abc" ⟨true, true⟩).1 rfl,
   (C7_amended_int_validation_only "70000" ⟨true, true⟩).2 70000 rfl⟩

/-- C8: when an interrupt arrives while serving, the shutdown line is
printed to stderr right after the startup line, nothing is printed to
stdout, and the process exits with code 0. -/
theorem C8_interrupt_clean_shutdown (argv : List String) (env : Env) (cfg : Config)
    (hp : parse_args argv = Except.ok cfg) (hb : env.bindOk = true) (hi : env.interrupted = true) :
    (main_run argv env).stderrLines = [serving_msg cfg, shutdown_msg] ∧
    (main_run argv env).stdoutLines = [] ∧
    (main_run argv env).exitCode = some 0 := by
  simp [main_run, hp, hb, hi]

/-- C8 witness: an interrupted run with default arguments. -/
theorem C8_interrupt_witness :
    (main_run [] ⟨true, true⟩).stderrLines = [serving_msg ⟨8000, "public"⟩, shutdown_msg] ∧
    (main_run [] ⟨true, true⟩).stdoutLines = [] ∧
    (main_run [] ⟨true, true⟩).exitCode = some 0 :=
  C8_interrupt_clean_shutdown [] ⟨true, true⟩ ⟨8000, "public"⟩ rfl rfl rfl

/-- C9: startup never validates the configured directory: any --dir
value parses, and whenever the bind succeeds the process enters Serving
and prints the startup line, whatever the directory is; a directory
absent from the filesystem surfaces only per-request, as a 404 on GET. -/
theorem C9_no_startup_dir_validation (d : String) (env : Env) (hb : env.bindOk = true) :
    parse_args ["--dir", d] = Except.ok ⟨8000, d⟩ ∧
    (main_run ["--dir", d] env).served = true ∧
    (main_run ["--dir", d] env).servingLinePrinted = true ∧
    (∀ fs : Fs, ∀ root : List String, ∀ req : Request,
      fs.files = [] → fs.dirs = [] → req.method = Method.GET →
      (handle_request fs root req).status = 404) := by
  have hstep : parse_args ["--dir", d] = Except.ok (⟨8000, d⟩ : Config) := rfl
  refine ⟨hstep, ?_, ?_, ?_⟩
  · cases henv : env.interrupted <;> simp [main_run, hstep, hb, henv]
  · cases henv : env.interrupted <;> simp [main_run, hstep, hb, henv]
  · intro fs root req h1 h2 hm
    rcases req with ⟨m, p, hs⟩
    simp only [Request.method] at hm
    subst hm
    simp [handle_request, base_handle, h1, h2, List.lookup]

/-- C9 witness: a nonexistent directory argument still reaches Serving
once the bind succeeds, and a GET against an empty filesystem is a 404
handled per-request. -/
theorem C9_no_validation_witness :
    (main_run ["--dir", "no-such-dir"] ⟨true, false⟩).served = true ∧
    (main_run ["--dir", "no-such-dir"] ⟨true, false⟩).servingLinePrinted = true ∧
    (handle_request ⟨[], []⟩ ["no-such-dir"] ⟨Method.GET, "/index.html", []⟩).status = 404 := by
  have h := C9_no_startup_dir_validation "no-such-dir" ⟨true, false⟩ rfl
  exact ⟨h.2.1, h.2.2.1,
    h.2.2.2 ⟨[], []⟩ ["no-such-dir"] ⟨Method.GET, "/index.html", []⟩ rfl rfl rfl⟩

end ServeCors
